import Mathlib

/-!
Shallow embedding of the openmanus-web chat client and server core.

Client side (src/client/src/contexts/ChatContext.tsx, src/client/src/lib/api.ts):
the WebSocket connection manager (connect / reconnect with exponential
backoff), the task/event protocol handler (encode outgoing task frames,
decode inbound event frames, dispatch to the session/message state), and
the session CRUD actions of the React context.

Server side (src/server/chatDb.ts, src/server/routers.ts): the persistence
layer over the chat tables and the tRPC route handlers that wrap it.

Impure calls of the source (Date.now / new Date(), nanoid(), the ids handed
out by the database) are modelled as explicit parameters; JavaScript `Date`
values are modelled by an inductive `DateV` that records how the value was
built; the JSON wire format is modelled by a small executable parser for the
flat string-field objects this protocol exchanges.
-/

namespace OpenManus

/-- Message roles of the client `Message` interface and of the
`message_role` enum of the database schema. -/
inductive Role where
  | user
  | assistant
  | system
deriving DecidableEq, Repr

/-- The `status` field of a client `Message`: 'sending' | 'sent' | 'error'. -/
inductive MsgStatus where
  | sending
  | sent
  | error
deriving DecidableEq, Repr

/-- Model of a JavaScript `Date` value: `clock t` is `new Date()` at tick `t`,
`fromTs s` is `new Date(ts)` applied to an (optional) timestamp string. -/
inductive DateV where
  | clock (t : Nat)
  | fromTs (ts : Option String)
deriving DecidableEq, Repr

/-- Client-side `Message` (ChatContext.tsx). -/
structure Message where
  id : String
  role : Role
  content : String
  timestamp : DateV
  status : Option MsgStatus
deriving DecidableEq, Repr

/-- Client-side `ChatSession` (ChatContext.tsx). -/
structure ChatSession where
  id : String
  title : String
  messages : List Message
  createdAt : DateV
  updatedAt : DateV
deriving DecidableEq, Repr

/-- The `WebSocket.readyState` values; `opened` models `WebSocket.OPEN`
(`open` is a Lean keyword). -/
inductive WsReadyState where
  | connecting
  | opened
  | closing
  | closed
deriving DecidableEq, Repr

/-- One WebSocket instance: an identity (allocation order) and its
ready state.  The identity models JavaScript object identity of the
`WebSocket` objects successively stored in `wsRef`. -/
structure WsConn where
  id : Nat
  readyState : WsReadyState
deriving DecidableEq, Repr

/-- The state owned by `ChatProvider`: the `useState` values
(`sessions`, `currentSessionId`, `isConnected`, `isProcessing`) and the
refs (`wsRef`, `reconnectAttemptsRef`, `reconnectTimeoutRef`).
`reconnectTimeout` holds the delay of the pending retry timer, if any;
`nextWsId` models the allocation of fresh `WebSocket` objects. -/
structure ChatState where
  sessions : List ChatSession
  currentSessionId : Option String
  isConnected : Bool
  isProcessing : Bool
  wsRef : Option WsConn
  reconnectAttempts : Nat
  reconnectTimeout : Option Nat
  nextWsId : Nat
deriving DecidableEq, Repr

/-- The initial `ChatProvider` state: empty `useState` defaults and null refs. -/
def initialChatState : ChatState :=
  { sessions := []
    currentSessionId := none
    isConnected := false
    isProcessing := false
    wsRef := none
    reconnectAttempts := 0
    reconnectTimeout := none
    nextWsId := 0 }

/-- Embeds `const maxReconnectAttempts = 5` (ChatContext.tsx line 50). -/
def maxReconnectAttempts : Nat := 5

/-- The check `wsRef.current?.readyState === WebSocket.OPEN`. -/
def wsOpen (st : ChatState) : Bool :=
  match st.wsRef with
  | some w => w.readyState == WsReadyState.opened
  | none => false

/-- Decoded inbound frame, as the TypeScript `WebSocketMessage` interface
(api.ts).  `JSON.parse(event.data) as WebSocketMessage` performs no runtime
validation, so every field beyond what the frame actually carried reads as
`undefined`: all fields are modelled as optional, with an absent `type`
decoded to `""` (which matches no `switch` case, like `undefined`). -/
structure WebSocketMessage where
  type : String
  task_id : Option String
  message : Option String
  level : Option String
  result : Option String
  error : Option String
  timestamp : Option String
deriving DecidableEq, Repr

/-- JavaScript `x || d` for an optional string `x`:
`undefined` and `""` are falsy. -/
def strOr (o : Option String) (d : String) : String :=
  match o with
  | some s => if s == "" then d else s
  | none => d

/-- Replace the first session whose `id` equals `sid` by `f` of it; the
source locates the session with `findIndex(s => s.id === currentSessionId)`
and mutates that slot. -/
def modifySession (l : List ChatSession) (sid : String) (f : ChatSession → ChatSession) :
    List ChatSession :=
  match l with
  | [] => []
  | s :: rest => if s.id == sid then f s :: rest else s :: modifySession rest sid f

/-- Append a message to session `sid` and refresh its `updatedAt`
(`...messages.push(msg); ...updatedAt = new Date()`). -/
def appendTo (l : List ChatSession) (sid : String) (msg : Message) (now : Nat) :
    List ChatSession :=
  modifySession l sid (fun s =>
    { s with messages := s.messages ++ [msg], updatedAt := DateV.clock now })

/-- The lookup `prev.find(s => s.id === currentSessionId)` — `undefined` both when
`currentSessionId` is null and when no session matches. -/
def lookupActive (st : ChatState) : Option ChatSession :=
  match st.currentSessionId with
  | none => none
  | some sid => st.sessions.find? (fun s => s.id == sid)

/-- Embeds `handleWebSocketMessage` (ChatContext.tsx lines 110-183).  The impure
`nanoid()` and `new Date()` calls inside the handler are the `fid` and `now`
parameters; the `setIsProcessing` calls issued inside the `setSessions`
updater are folded into the same state transition. -/
def handleWebSocketMessage (st : ChatState) (m : WebSocketMessage)
    (fid : String) (now : Nat) : ChatState :=
  match st.currentSessionId with
  | none => st
  | some sid =>
    match st.sessions.find? (fun s => s.id == sid) with
    | none => st
    | some _ =>
      if m.type == "task_started" then { st with isProcessing := true }
      else if m.type == "status" || m.type == "log" then
        match m.message with
        | some msgText =>
          if msgText == "" then st
          else
            let statusMsg : Message :=
              { id := fid, role := Role.system, content := msgText
                timestamp := DateV.fromTs m.timestamp, status := some MsgStatus.sent }
            { st with sessions := appendTo st.sessions sid statusMsg now }
        | none => st
      else if m.type == "task_completed" then
        let st1 := { st with isProcessing := false }
        match m.result with
        | some r =>
          if r == "" then st1
          else
            let resultMsg : Message :=
              { id := fid, role := Role.assistant, content := r
                timestamp := DateV.fromTs m.timestamp, status := some MsgStatus.sent }
            { st1 with sessions := appendTo st1.sessions sid resultMsg now }
        | none => st1
      else if m.type == "task_failed" then
        let failMsg : Message :=
          { id := fid, role := Role.system
            content := "Error: " ++ strOr m.error "Task failed"
            timestamp := DateV.fromTs m.timestamp, status := some MsgStatus.error }
        { st with isProcessing := false, sessions := appendTo st.sessions sid failMsg now }
      else if m.type == "error" then
        let errMsg : Message :=
          { id := fid, role := Role.system
            content := "Error: " ++ strOr m.message "Unknown error"
            timestamp := DateV.fromTs m.timestamp, status := some MsgStatus.error }
        { st with isProcessing := false, sessions := appendTo st.sessions sid errMsg now }
      else st

/-- Delivery of a decoded frame by WebSocket instance `conn`.  The
`onmessage` closure installed by `createWebSocket` invokes the
`handleWebSocketMessage` callback unconditionally: the identity of the
delivering connection is never compared with `wsRef.current`, so `conn`
is ignored. -/
def deliverFrame (_conn : Nat) (st : ChatState) (m : WebSocketMessage)
    (fid : String) (now : Nat) : ChatState :=
  handleWebSocketMessage st m fid now

/-- The delay `Math.min(3000 * Math.pow(2, attempts), 30000)` (ChatContext.tsx line 86). -/
def backoffDelay (n : Nat) : Nat := min (3000 * 2 ^ n) 30000

/-- Embeds `connectWebSocket` (ChatContext.tsx lines 56-107): no-op when the current
socket is already `OPEN`; when the retry budget is exhausted, only drops the
connectivity flag; otherwise allocates a fresh `WebSocket` (the `try` block;
`new WebSocket` cannot throw here, the URL being fixed and valid) and stores
it in `wsRef`. -/
def connectWebSocket (st : ChatState) : ChatState :=
  if wsOpen st then st
  else if maxReconnectAttempts ≤ st.reconnectAttempts then
    { st with isConnected := false }
  else
    { st with wsRef := some { id := st.nextWsId, readyState := WsReadyState.connecting }
              nextWsId := st.nextWsId + 1 }

/-- The `ws.onopen` handler (ChatContext.tsx lines 96-100) on the current
socket: the browser moves the socket to `OPEN` and the handler sets the
connectivity flag and resets the attempt counter to zero. -/
def onOpen (st : ChatState) : ChatState :=
  { st with wsRef := st.wsRef.map (fun w => { w with readyState := WsReadyState.opened })
            isConnected := true
            reconnectAttempts := 0 }

/-- The `onClose` callback (ChatContext.tsx lines 77-93) on the current
socket: the browser moves the socket to `CLOSED`; the handler drops the
connectivity flag and, while the attempt counter is below the maximum,
replaces any pending retry timer (`clearTimeout` + `setTimeout`) with one
firing after the backoff delay for the current counter value. -/
def onClose (st : ChatState) : ChatState :=
  if st.reconnectAttempts < maxReconnectAttempts then
    { st with wsRef := st.wsRef.map (fun w => { w with readyState := WsReadyState.closed })
              isConnected := false
              reconnectTimeout := some (backoffDelay st.reconnectAttempts) }
  else
    { st with wsRef := st.wsRef.map (fun w => { w with readyState := WsReadyState.closed })
              isConnected := false }

/-- The retry timer firing (ChatContext.tsx lines 87-91): the callback first
increments the attempt counter, then calls `connectWebSocket`; the timer is
no longer pending once it has fired. -/
def fireRetry (st : ChatState) : ChatState :=
  connectWebSocket
    { st with reconnectAttempts := st.reconnectAttempts + 1, reconnectTimeout := none }

/-- Embeds `createSession` (ChatContext.tsx lines 186-197). -/
def createSession (st : ChatState) (sid : String) (now : Nat) : ChatState :=
  let newSession : ChatSession :=
    { id := sid, title := "New Chat", messages := []
      createdAt := DateV.clock now, updatedAt := DateV.clock now }
  { st with sessions := newSession :: st.sessions, currentSessionId := some sid }

/-- Embeds `selectSession` (ChatContext.tsx lines 200-202). -/
def selectSession (st : ChatState) (sid : String) : ChatState :=
  { st with currentSessionId := some sid }

/-- Embeds `deleteSession` of the chat context (ChatContext.tsx lines 205-210). -/
def deleteSessionClient (st : ChatState) (sid : String) : ChatState :=
  let st1 := { st with sessions := st.sessions.filter (fun s => !(s.id == sid)) }
  if st.currentSessionId == some sid then { st1 with currentSessionId := none } else st1

/-- Embeds `clearCurrentSession` (ChatContext.tsx lines 282-294). -/
def clearCurrentSession (st : ChatState) (now : Nat) : ChatState :=
  match st.currentSessionId with
  | none => st
  | some sid =>
    let sessions1 := modifySession st.sessions sid
      (fun s => { s with messages := [], updatedAt := DateV.clock now })
    { st with sessions := sessions1 }

/-- The alphabet the nanoid library draws identifier characters from. -/
def nanoidAlphabet : List Char :=
  "useandom26T198340PX75pxJACKVERYMINDBSHWLFGQZbfghjklqvwyzrictABCD".toList

/-- Model of the external `nanoid()` generator: a deterministic stand-in
producing, from an explicit randomness seed, a 21-character identifier over
the nanoid alphabet (the library's output is always exactly 21 characters). -/
def nanoid (seed : Nat) : String :=
  String.mk ((List.range 21).map (fun i => nanoidAlphabet.getD ((seed + i) % 64) 'a'))

/-- The argument of `OpenManusAPI.sendTask`: `Omit<TaskRequest, 'type'>`. -/
structure TaskRequestW where
  prompt : String
  task_id : Option String
deriving DecidableEq, Repr

/-- An outbound wire frame, the serialized `TaskRequest` of api.ts. -/
structure TaskFrame where
  type : String
  prompt : String
  task_id : Option String
deriving DecidableEq, Repr

/-- Embeds `OpenManusAPI.sendTask` (api.ts lines 131-141): when the socket is
`OPEN`, injects `type: 'task'`, writes the frame (the `.ok` payload) and
returns; otherwise throws `'WebSocket is not open'` and writes nothing. -/
def sendTask (ws : WsConn) (request : TaskRequestW) : Except String TaskFrame :=
  if ws.readyState == WsReadyState.opened then
    Except.ok { type := "task", prompt := request.prompt, task_id := request.task_id }
  else
    Except.error "WebSocket is not open"

/-- First-match update of a message by id
(`findIndex(m => m.id === userMessage.id)` then mutate). -/
def modifyMessage (l : List Message) (mid : String) (f : Message → Message) :
    List Message :=
  match l with
  | [] => []
  | m :: rest => if m.id == mid then f m :: rest else m :: modifyMessage rest mid f

/-- Computes `content.slice(0, 50) + (content.length > 50 ? '...' : '')`. -/
def titleFrom (content : String) : String :=
  (String.mk (content.toList.take 50)) ++ (if 50 < content.length then "..." else "")

/-- The `setSessions` updater of `sendMessage` that pushes the user
message, refreshes `updatedAt`, and retitles the session when this was its
first message (`messages.length === 1` after the push). -/
def pushUser (userMessage : Message) (content : String) (now : Nat)
    (s : ChatSession) : ChatSession :=
  let s1 := { s with messages := s.messages ++ [userMessage]
                     updatedAt := DateV.clock now }
  if s1.messages.length == 1 then { s1 with title := titleFrom content } else s1

/-- The `setSessions` updater of `sendMessage` that rewrites the status of
the message with id `mid`. -/
def markMsg (mid : String) (newStatus : MsgStatus) (s : ChatSession) : ChatSession :=
  let msgs1 := modifyMessage s.messages mid
    (fun msg => { msg with status := some newStatus })
  { s with messages := msgs1 }

/-- Embeds `sendMessage` (ChatContext.tsx lines 213-279).  Returns the new state
and the list of frames written to the socket.  The guard rejects a null or
empty `currentSessionId`, a null `wsRef` and a false connectivity flag
(JavaScript truthiness); the user message is appended with status
`sending`, `api.sendTask` is invoked with a generated `task_id`
(`nanoid()`, modelled by `seed`), and the message status becomes `sent` on
success or `error` when `sendTask` throws. -/
def sendMessage (st : ChatState) (content : String) (mid : String)
    (seed : Nat) (now : Nat) : ChatState × List TaskFrame :=
  match st.currentSessionId, st.wsRef with
  | some sid, some ws =>
    if sid == "" || !st.isConnected then (st, [])
    else
      let userMessage : Message :=
        { id := mid, role := Role.user, content := content
          timestamp := DateV.clock now, status := some MsgStatus.sending }
      let sessions1 := modifySession st.sessions sid (pushUser userMessage content now)
      let st1 := { st with sessions := sessions1 }
      match sendTask ws { prompt := content, task_id := some (nanoid seed) } with
      | Except.ok frame =>
        let sessionsOk := modifySession st1.sessions sid (markMsg mid MsgStatus.sent)
        ({ st1 with sessions := sessionsOk }, [frame])
      | Except.error _ =>
        let sessionsErr := modifySession st1.sessions sid (markMsg mid MsgStatus.error)
        ({ st1 with sessions := sessionsErr }, [])
  | _, _ => (st, [])

/-- The double-quote character. -/
def quoteChar : Char := Char.ofNat 34

/-- The opening-brace character. -/
def lbraceChar : Char := Char.ofNat 123

/-- The closing-brace character. -/
def rbraceChar : Char := Char.ofNat 125

/-- Skip JSON whitespace. -/
def skipWs : List Char → List Char
  | [] => []
  | c :: cs =>
    if c == ' ' || c == '\n' || c == '\t' || c == '\r' then skipWs cs else c :: cs

/-- Consume the characters of a string literal up to its closing quote
(the frames this protocol exchanges contain no escape sequences). -/
def takeStr : List Char → Option (List Char × List Char)
  | [] => none
  | c :: cs =>
    if c == quoteChar then some ([], cs)
    else (takeStr cs).map (fun p => (c :: p.1, p.2))

/-- Parse `"key" : "value"` pairs separated by commas, up to the closing
brace; `fuel` bounds the recursion by the input length. -/
def parsePairs (fuel : Nat) (cs : List Char) :
    Option (List (String × String) × List Char) :=
  match fuel with
  | 0 => none
  | fuel' + 1 =>
    match skipWs cs with
    | [] => none
    | c :: cs1 =>
      if c == quoteChar then
        match takeStr cs1 with
        | none => none
        | some (key, cs2) =>
          match skipWs cs2 with
          | ':' :: cs3 =>
            match skipWs cs3 with
            | [] => none
            | c4 :: cs4 =>
              if c4 == quoteChar then
                match takeStr cs4 with
                | none => none
                | some (val, cs5) =>
                  match skipWs cs5 with
                  | ',' :: cs6 =>
                    (parsePairs fuel' cs6).map
                      (fun p => ((String.mk key, String.mk val) :: p.1, p.2))
                  | c7 :: cs7 =>
                    if c7 == rbraceChar then
                      some ([(String.mk key, String.mk val)], cs7)
                    else none
                  | [] => none
              else none
          | _ => none
      else none

/-- Model of `JSON.parse` restricted to the wire format of §6: a flat object
whose fields are string-valued.  Returns `none` exactly when the payload is
malformed with respect to that grammar. -/
def jsonParse (data : String) : Option (List (String × String)) :=
  match skipWs data.toList with
  | [] => none
  | c :: cs1 =>
    if c == lbraceChar then
      match skipWs cs1 with
      | [] => none
      | c2 :: cs2 =>
        if c2 == rbraceChar then
          if (skipWs cs2).isEmpty then some [] else none
        else
          match parsePairs (cs1.length + 1) cs1 with
          | some (fields, rest) => if (skipWs rest).isEmpty then some fields else none
          | none => none
    else none

/-- Field access on the parsed object. -/
def lookupField (fields : List (String × String)) (k : String) : Option String :=
  (fields.find? (fun p => p.1 == k)).map (fun p => p.2)

/-- The unchecked cast `JSON.parse(event.data) as WebSocketMessage`:
each field reads whatever the parsed object carries, `undefined`
(here `none`) when absent; an absent `type` reads as `""`, which matches
no `switch` case, exactly as `undefined` does. -/
def decodeFrame (fields : List (String × String)) : WebSocketMessage :=
  { type := (lookupField fields "type").getD ""
    task_id := lookupField fields "task_id"
    message := lookupField fields "message"
    level := lookupField fields "level"
    result := lookupField fields "result"
    error := lookupField fields "error"
    timestamp := lookupField fields "timestamp" }

/-- Parse an inbound payload into a decoded frame. -/
def parseWsFrame (data : String) : Option WebSocketMessage :=
  (jsonParse data).map decodeFrame

/-- The `ws.onmessage` closure of `createWebSocket` (api.ts lines 103-110):
`try { onMessage(JSON.parse(event.data)) } catch { }`.  Returns the new
client state together with the list of events dispatched to the handler. -/
def wsOnMessage (data : String) (st : ChatState) (fid : String) (now : Nat) :
    ChatState × List WebSocketMessage :=
  match parseWsFrame data with
  | some m => (handleWebSocketMessage st m fid now, [m])
  | none => (st, [])

/-! ## Server side: chatDb.ts and the chat routes of routers.ts -/

/-- A `chatSessions` row (drizzle/schema.ts).  Timestamps are ticks. -/
structure DbChatSession where
  id : Nat
  userId : Nat
  title : String
  createdAt : Nat
  updatedAt : Nat
deriving DecidableEq, Repr

/-- A `chatMessages` row (drizzle/schema.ts). -/
structure DbChatMessage where
  id : Nat
  sessionId : Nat
  role : Role
  content : String
  createdAt : Nat
deriving DecidableEq, Repr

/-- The two chat tables, rows kept in insertion (`createdAt`) order. -/
structure Db where
  chatSessions : List DbChatSession
  chatMessages : List DbChatMessage
deriving DecidableEq, Repr

/-- Embeds `getChatSession` (chatDb.ts lines 51-64):
`select ... where and(eq(id, sessionId), eq(userId, userId)) limit 1`. -/
def getChatSession (db : Db) (sessionId userId : Nat) : Option DbChatSession :=
  db.chatSessions.find? (fun s => s.id == sessionId && s.userId == userId)

/-- Embeds `getChatMessages` (chatDb.ts lines 140-151):
`select ... where eq(sessionId) orderBy createdAt`. -/
def getChatMessages (db : Db) (sessionId : Nat) : List DbChatMessage :=
  db.chatMessages.filter (fun m => m.sessionId == sessionId)

/-- Embeds `updateChatSession` (chatDb.ts lines 69-79): an UPDATE whose WHERE
clause requires both the session id and the caller's ownership. -/
def updateChatSession (db : Db) (sessionId userId : Nat) (title : String) (now : Nat) : Db :=
  let sessions1 := db.chatSessions.map (fun s =>
    if s.id == sessionId && s.userId == userId then
      ({ s with title := title, updatedAt := now } : DbChatSession)
    else s)
  { db with chatSessions := sessions1 }

/-- Embeds `deleteChatSession` (chatDb.ts lines 84-97): first deletes every
message row matching the session id (no ownership condition), then deletes
the session row only where the caller owns it. -/
def deleteChatSession (db : Db) (sessionId userId : Nat) : Db :=
  let db1 := { db with
    chatMessages := db.chatMessages.filter (fun m => !(m.sessionId == sessionId)) }
  { db1 with
    chatSessions := db1.chatSessions.filter
      (fun s => !(s.id == sessionId && s.userId == userId)) }

/-- Embeds `addChatMessage` (chatDb.ts lines 102-135): inserts the message row
(the serial id handed out by the database is the `mid` parameter), bumps
the session's `updatedAt`, and returns the new id. -/
def addChatMessage (db : Db) (sessionId : Nat) (role : Role) (content : String)
    (mid now : Nat) : Db × Nat :=
  let newMessage : DbChatMessage :=
    { id := mid, sessionId := sessionId, role := role, content := content, createdAt := now }
  let db1 := { db with chatMessages := db.chatMessages ++ [newMessage] }
  let sessions1 := db1.chatSessions.map (fun s =>
    if s.id == sessionId then ({ s with updatedAt := now } : DbChatSession) else s)
  ({ db1 with chatSessions := sessions1 }, mid)

/-- The fixed rejection message of the guarded chat routes. -/
def accessDeniedMsg : String := "Session not found or access denied"

/-- Embeds `chat.getMessages` (routers.ts lines 37-46): verifies ownership via
`getChatSession` and rejects with the fixed message when it fails. -/
def routeGetMessages (db : Db) (userId sessionId : Nat) :
    Except String (List DbChatMessage) :=
  match getChatSession db sessionId userId with
  | none => Except.error accessDeniedMsg
  | some _ => Except.ok (getChatMessages db sessionId)

/-- Embeds `chat.addMessage` (routers.ts lines 49-69): same ownership guard, then
inserts the message. -/
def routeAddMessage (db : Db) (userId sessionId : Nat) (role : Role)
    (content : String) (mid now : Nat) : Except String (Db × Nat) :=
  match getChatSession db sessionId userId with
  | none => Except.error accessDeniedMsg
  | some _ => Except.ok (addChatMessage db sessionId role content mid now)

/-- Embeds `chat.updateSession` (routers.ts lines 72-77): no ownership guard in
the route; it runs the ownership-scoped UPDATE and reports success
unconditionally (the `.ok` result). -/
def routeUpdateSession (db : Db) (userId sessionId : Nat) (title : String)
    (now : Nat) : Except String Db :=
  Except.ok (updateChatSession db sessionId userId title now)

/-- Embeds `chat.deleteSession` (routers.ts lines 80-85): no ownership guard in
the route; it runs `deleteChatSession` and returns success unconditionally. -/
def routeDeleteSession (db : Db) (userId sessionId : Nat) : Except String Db :=
  Except.ok (deleteChatSession db sessionId userId)

/-! ## Reachable client states

The events that can act on the `ChatProvider` state: the connection
lifecycle callbacks on the currently owned socket, the retry timer, and
the UI actions.  Side conditions mirror the browser: `onopen` fires on a
`CONNECTING` socket, `onclose` on a socket that is not yet `CLOSED`, and
the retry callback only when a timer is pending. -/

/-- The current socket exists and is still in the `CONNECTING` state. -/
def wsConnecting (st : ChatState) : Bool :=
  match st.wsRef with
  | some w => w.readyState == WsReadyState.connecting
  | none => false

/-- The current socket exists and has not yet reached the `CLOSED` state. -/
def wsAlive (st : ChatState) : Bool :=
  match st.wsRef with
  | some w => !(w.readyState == WsReadyState.closed)
  | none => false

/-- A retry timer is pending. -/
def hasPendingRetry (st : ChatState) : Bool :=
  st.reconnectTimeout.isSome

/-- States of `ChatProvider` reachable from mount by the embedded events. -/
inductive Reach : ChatState → Prop where
  | init : Reach initialChatState
  | connect {st : ChatState} : Reach st → Reach (connectWebSocket st)
  | wsOpened {st : ChatState} : Reach st → wsConnecting st = true → Reach (onOpen st)
  | wsClosed {st : ChatState} : Reach st → wsAlive st = true → Reach (onClose st)
  | retryFired {st : ChatState} : Reach st → hasPendingRetry st = true →
      Reach (fireRetry st)
  | handled {st : ChatState} (data : String) (fid : String) (now : Nat) :
      Reach st → Reach (wsOnMessage data st fid now).1
  | sent {st : ChatState} (content mid : String) (seed now : Nat) :
      Reach st → Reach (sendMessage st content mid seed now).1
  | created {st : ChatState} (sid : String) (now : Nat) :
      Reach st → Reach (createSession st sid now)
  | selected {st : ChatState} (sid : String) :
      Reach st → Reach (selectSession st sid)
  | removed {st : ChatState} (sid : String) :
      Reach st → Reach (deleteSessionClient st sid)
  | cleared {st : ChatState} (now : Nat) :
      Reach st → Reach (clearCurrentSession st now)

/-- The connection-manager invariant: past the retry budget the current
socket is never open, and a pending retry timer coexisting with an open
socket forces a counter already reset to zero. -/
def ConnInv (st : ChatState) : Prop :=
  (maxReconnectAttempts ≤ st.reconnectAttempts → wsOpen st = false) ∧
  (st.reconnectTimeout ≠ none → wsOpen st = true → st.reconnectAttempts = 0)

/-- The session/message-level operations leave the connection fields alone. -/
def connUntouched (st st' : ChatState) : Prop :=
  st'.wsRef = st.wsRef ∧ st'.reconnectAttempts = st.reconnectAttempts ∧
    st'.reconnectTimeout = st.reconnectTimeout

theorem wsOpen_congr {st st' : ChatState} (h : st'.wsRef = st.wsRef) :
    wsOpen st' = wsOpen st := by
  unfold wsOpen
  rw [h]

theorem connInv_transfer {st st' : ChatState} (h : connUntouched st st')
    (hi : ConnInv st) : ConnInv st' := by
  obtain ⟨h1, h2, h3⟩ := h
  obtain ⟨a, b⟩ := hi
  constructor
  · intro h5
    rw [wsOpen_congr h1]
    exact a (h2 ▸ h5)
  · intro hne hop
    rw [h2]
    exact b (h3 ▸ hne) ((wsOpen_congr h1) ▸ hop)

theorem handle_connUntouched (st : ChatState) (m : WebSocketMessage)
    (fid : String) (now : Nat) :
    connUntouched st (handleWebSocketMessage st m fid now) := by
  unfold handleWebSocketMessage
  repeat' split
  all_goals exact ⟨rfl, rfl, rfl⟩

theorem wsOnMessage_connUntouched (data : String) (st : ChatState)
    (fid : String) (now : Nat) :
    connUntouched st (wsOnMessage data st fid now).1 := by
  unfold wsOnMessage
  split
  · exact handle_connUntouched st _ fid now
  · exact ⟨rfl, rfl, rfl⟩

theorem sendMessage_connUntouched (st : ChatState) (content mid : String)
    (seed now : Nat) :
    connUntouched st (sendMessage st content mid seed now).1 := by
  unfold sendMessage
  repeat' split
  all_goals exact ⟨rfl, rfl, rfl⟩

theorem connInv_connect {st : ChatState} (h : ConnInv st) :
    ConnInv (connectWebSocket st) := by
  unfold connectWebSocket
  split
  · exact h
  · split
    · exact h
    next h5 =>
      refine ⟨fun _ => rfl, fun _ hop => ?_⟩
      simp [wsOpen] at hop

theorem connInv_onOpen {st : ChatState} : ConnInv (onOpen st) := by
  refine ⟨fun h5 => absurd h5 (by simp [onOpen, maxReconnectAttempts]), fun _ _ => rfl⟩

theorem wsOpen_onClose (st : ChatState) : wsOpen (onClose st) = false := by
  unfold onClose
  split <;> (unfold wsOpen; cases st.wsRef <;> simp)

theorem connInv_onClose {st : ChatState} : ConnInv (onClose st) := by
  refine ⟨fun _ => wsOpen_onClose st, fun _ hop => ?_⟩
  rw [wsOpen_onClose st] at hop
  cases hop

theorem connInv_fire {st : ChatState} (hp : hasPendingRetry st = true)
    (h : ConnInv st) : ConnInv (fireRetry st) := by
  obtain ⟨_, b⟩ := h
  have hne : st.reconnectTimeout ≠ none := by
    intro hcon
    rw [hasPendingRetry, hcon] at hp
    cases hp
  show ConnInv (connectWebSocket _)
  apply connInv_connect
  refine ⟨fun h5 => ?_, fun hcon _ => absurd rfl hcon⟩
  show wsOpen st = false
  have h5' : maxReconnectAttempts ≤ st.reconnectAttempts + 1 := h5
  cases hw : wsOpen st with
  | true =>
    exfalso
    rw [b hne hw] at h5'
    exact absurd h5' (by decide)
  | false => rfl

theorem reach_connInv {st : ChatState} (h : Reach st) : ConnInv st := by
  induction h with
  | init =>
    exact ⟨fun h5 => absurd h5 (by decide), fun hne _ => absurd rfl hne⟩
  | connect _ ih => exact connInv_connect ih
  | wsOpened _ _ _ => exact connInv_onOpen
  | wsClosed _ _ _ => exact connInv_onClose
  | retryFired _ hp ih => exact connInv_fire hp ih
  | handled data fid now _ ih =>
    exact connInv_transfer (wsOnMessage_connUntouched data _ fid now) ih
  | sent content mid seed now _ ih =>
    exact connInv_transfer (sendMessage_connUntouched _ content mid seed now) ih
  | created sid now _ ih => exact connInv_transfer ⟨rfl, rfl, rfl⟩ ih
  | selected sid _ ih => exact connInv_transfer ⟨rfl, rfl, rfl⟩ ih
  | removed sid _ ih =>
    refine connInv_transfer ?_ ih
    unfold deleteSessionClient
    split
    · exact ⟨rfl, rfl, rfl⟩
    · exact ⟨rfl, rfl, rfl⟩
  | cleared now _ ih =>
    refine connInv_transfer ?_ ih
    unfold clearCurrentSession
    split
    · exact ⟨rfl, rfl, rfl⟩
    · exact ⟨rfl, rfl, rfl⟩

/-! ## Auxiliary lemmas -/

theorem nanoid_length (seed : Nat) : (nanoid seed).length = 21 := by
  unfold nanoid
  simp [String.length]

theorem nanoid_ne_empty (seed : Nat) : nanoid seed ≠ "" := by
  intro hcon
  have h := congrArg String.length hcon
  rw [nanoid_length] at h
  exact absurd h (by decide)

theorem find?_modifySession (l : List ChatSession) (sid : String)
    (f : ChatSession → ChatSession) (s : ChatSession)
    (hf : l.find? (fun x => x.id == sid) = some s) (hid : (f s).id = s.id) :
    (modifySession l sid f).find? (fun x => x.id == sid) = some (f s) := by
  induction l with
  | nil => cases hf
  | cons a rest ih =>
    by_cases ha : (a.id == sid) = true
    · rw [@List.find?_cons_of_pos _ (fun x => x.id == sid) a rest ha] at hf
      obtain rfl : a = s := Option.some.inj hf
      unfold modifySession
      rw [if_pos ha]
      have hfa : ((f a).id == sid) = true := by rw [hid]; exact ha
      rw [@List.find?_cons_of_pos _ (fun x => x.id == sid) (f a) rest hfa]
    · rw [@List.find?_cons_of_neg _ (fun x => x.id == sid) a rest ha] at hf
      unfold modifySession
      rw [if_neg ha, @List.find?_cons_of_neg _ (fun x => x.id == sid) a
        (modifySession rest sid f) ha]
      exact ih hf

/-! ## Sample states used by the concrete checks -/

/-- A state with one empty active session and an open socket. -/
def openConnState : ChatState :=
  { initialChatState with
      sessions := [{ id := "s1", title := "New Chat", messages := []
                     createdAt := DateV.clock 0, updatedAt := DateV.clock 0 }]
      currentSessionId := some "s1"
      isConnected := true
      wsRef := some { id := 0, readyState := WsReadyState.opened }
      nextWsId := 1 }

/-- The state after one failed connection and five expired retries:
`connectWebSocket`, then five rounds of `onClose` / `fireRetry`. -/
def exhaustedState : ChatState :=
  fireRetry (onClose (fireRetry (onClose (fireRetry (onClose (fireRetry (onClose
    (fireRetry (onClose (connectWebSocket initialChatState))))))))))

theorem exhaustedState_reach : Reach exhaustedState :=
  Reach.retryFired (Reach.wsClosed (Reach.retryFired (Reach.wsClosed
    (Reach.retryFired (Reach.wsClosed (Reach.retryFired (Reach.wsClosed
      (Reach.retryFired (Reach.wsClosed (Reach.connect Reach.init)
        (by decide)) (by decide)) (by decide)) (by decide)) (by decide))
          (by decide)) (by decide)) (by decide)) (by decide)) (by decide)

/-! ## Claims -/

/-- C2: for every attempt index `n` with `0 ≤ n < 5`, the delay scheduled
before the `n`-th automatic reconnection attempt equals exactly
`min(3000 × 2^n, 30000)` milliseconds, and the attempt counter is
incremented only after the delay is scheduled (the counter is unchanged by
the scheduling `onClose`), before the retry fires (the fired retry runs
`connectWebSocket` on the counter already advanced to `n + 1`). -/
theorem c2_backoff_delay (n : Nat) (hn : n < 5) (st : ChatState)
    (ha : st.reconnectAttempts = n) :
    (onClose st).reconnectTimeout = some (min (3000 * 2 ^ n) 30000) ∧
    (onClose st).reconnectAttempts = n ∧
    fireRetry st = connectWebSocket
      { st with reconnectAttempts := n + 1, reconnectTimeout := none } := by
  subst ha
  have hlt : st.reconnectAttempts < maxReconnectAttempts := hn
  unfold onClose
  rw [if_pos hlt]
  exact ⟨rfl, rfl, rfl⟩

/-- Concrete check of C2 at attempt index 3: the scheduled delay is
24000 ms and the counter stays at 3 until the retry fires. -/
theorem c2_backoff_delay_witness :
    (3 : Nat) < 5 ∧
    (onClose { initialChatState with reconnectAttempts := 3 }).reconnectTimeout
      = some 24000 ∧
    (onClose { initialChatState with reconnectAttempts := 3 }).reconnectAttempts = 3 := by
  have h := c2_backoff_delay 3 (by decide)
    { initialChatState with reconnectAttempts := 3 } rfl
  refine ⟨by decide, ?_, h.2.1⟩
  rw [h.1]
  decide

/-- C3: for every reachable state whose attempt counter has reached the
maximum of 5, a `connectWebSocket` call creates no new connection
(`wsRef` and the allocator untouched), schedules nothing
(`reconnectTimeout` untouched) and leaves the connectivity flag false;
and a successful open resets the attempt counter to zero. -/
theorem c3_reconnect_exhaustion (st : ChatState) (hr : Reach st)
    (h5 : maxReconnectAttempts ≤ st.reconnectAttempts) :
    (connectWebSocket st).wsRef = st.wsRef ∧
    (connectWebSocket st).nextWsId = st.nextWsId ∧
    (connectWebSocket st).reconnectTimeout = st.reconnectTimeout ∧
    (connectWebSocket st).isConnected = false ∧
    (∀ t : ChatState, (onOpen t).reconnectAttempts = 0) := by
  have hO : wsOpen st = false := (reach_connInv hr).1 h5
  unfold connectWebSocket
  rw [if_neg (by rw [hO]; exact Bool.false_ne_true), if_pos h5]
  exact ⟨rfl, rfl, rfl, rfl, fun _ => rfl⟩

/-- Concrete check of C3 on the reachable state with the budget exhausted. -/
theorem c3_reconnect_exhaustion_witness :
    maxReconnectAttempts ≤ exhaustedState.reconnectAttempts ∧
    (connectWebSocket exhaustedState).isConnected = false ∧
    (connectWebSocket exhaustedState).wsRef = exhaustedState.wsRef ∧
    (connectWebSocket exhaustedState).reconnectTimeout = exhaustedState.reconnectTimeout ∧
    (onOpen initialChatState).reconnectAttempts = 0 := by
  have h := c3_reconnect_exhaustion exhaustedState exhaustedState_reach (by decide)
  exact ⟨by decide, h.2.2.2.1, h.1, h.2.2.1, h.2.2.2.2 initialChatState⟩

/-- C4: a task sent through `sendMessage` without any caller-supplied task
identifier produces exactly one wire frame, carrying the discriminator
`type = "task"` (injected by `sendTask` even though absent from the
caller's `Omit`-typed input) and a non-empty generated task identifier. -/
theorem c4_task_frame (st : ChatState) (content mid : String) (seed now : Nat)
    (sid : String) (ws : WsConn)
    (hsid : st.currentSessionId = some sid) (hne : sid ≠ "")
    (hws : st.wsRef = some ws) (hconn : st.isConnected = true)
    (hopen : ws.readyState = WsReadyState.opened) :
    (sendMessage st content mid seed now).2 =
      [{ type := "task", prompt := content, task_id := some (nanoid seed) }] ∧
    nanoid seed ≠ "" ∧
    (∀ (anyWs : WsConn) (req : TaskRequestW) (frame : TaskFrame),
      sendTask anyWs req = Except.ok frame → frame.type = "task") := by
  refine ⟨?_, nanoid_ne_empty seed, ?_⟩
  · unfold sendMessage
    have hg : (sid == "" || !st.isConnected) = false := by
      rw [hconn]
      simp [hne]
    simp only [hsid, hws, hg]
    unfold sendTask
    rw [hopen]
    simp
  · intro anyWs req frame hok
    unfold sendTask at hok
    by_cases hb : (anyWs.readyState == WsReadyState.opened) = true
    · rw [if_pos hb] at hok
      obtain rfl := Except.ok.inj hok
      rfl
    · rw [if_neg hb] at hok
      cases hok

/-- Concrete check of C4: sending "hello" over the open sample state. -/
theorem c4_task_frame_witness :
    (sendMessage openConnState "hello" "m1" 0 1).2 =
      [{ type := "task", prompt := "hello", task_id := some (nanoid 0) }] ∧
    nanoid 0 ≠ "" := by
  have h := c4_task_frame openConnState "hello" "m1" 0 1 "s1"
    { id := 0, readyState := WsReadyState.opened }
    rfl (by decide) rfl rfl rfl
  exact ⟨h.1, h.2.1⟩

/-- C6: an inbound payload that fails to parse is swallowed: the state is
unchanged and no event is dispatched to the handler. -/
theorem c6_malformed_swallowed (data : String) (st : ChatState) (fid : String)
    (now : Nat) (h : parseWsFrame data = none) :
    wsOnMessage data st fid now = (st, []) := by
  unfold wsOnMessage
  rw [h]

/-- Concrete check of C6 on a malformed payload. -/
theorem c6_malformed_swallowed_witness :
    parseWsFrame "not a frame" = none ∧
    wsOnMessage "not a frame" openConnState "m" 3 = (openConnState, []) :=
  ⟨rfl, c6_malformed_swallowed "not a frame" openConnState "m" 3 rfl⟩

/-- C7: a decoded `status` or `log` event with a non-empty `message` and a
present active session appends exactly one system-role message to that
session and stamps its `updatedAt` with the current clock; with an absent
`message` the state is untouched; and any event arriving with no active
session (null id or no matching session) mutates nothing. -/
theorem c7_status_log_dispatch (st : ChatState) (m : WebSocketMessage)
    (fid : String) (now : Nat) (sid : String) (s : ChatSession)
    (hty : m.type = "status" ∨ m.type = "log")
    (hsid : st.currentSessionId = some sid)
    (hfind : st.sessions.find? (fun x => x.id == sid) = some s) :
    (∀ msgText : String, m.message = some msgText → msgText ≠ "" →
      (handleWebSocketMessage st m fid now).sessions.find? (fun x => x.id == sid) =
        some { s with
          messages := s.messages ++
            [{ id := fid, role := Role.system, content := msgText
               timestamp := DateV.fromTs m.timestamp, status := some MsgStatus.sent }]
          updatedAt := DateV.clock now } ∧
      (handleWebSocketMessage st m fid now).isProcessing = st.isProcessing) ∧
    (m.message = none → handleWebSocketMessage st m fid now = st) ∧
    (∀ (st' : ChatState) (m' : WebSocketMessage), lookupActive st' = none →
      handleWebSocketMessage st' m' fid now = st') := by
  have hty1 : (m.type == "task_started") = false := by
    rcases hty with h | h <;> rw [h] <;> rfl
  have hty2 : (m.type == "status" || m.type == "log") = true := by
    rcases hty with h | h <;> rw [h] <;> rfl
  refine ⟨?_, ?_, ?_⟩
  · intro msgText hmsg hne
    have hne' : (msgText == "") = false := by
      simp [hne]
    unfold handleWebSocketMessage
    simp only [hsid, hfind, hty1, hty2, hmsg, hne', Bool.false_eq_true, if_false,
      if_true]
    constructor
    · unfold appendTo
      exact find?_modifySession st.sessions sid _ s hfind rfl
    · trivial
  · intro hmsg
    unfold handleWebSocketMessage
    simp only [hsid, hfind, hty1, hty2, hmsg, Bool.false_eq_true, if_false, if_true]
  · intro st' m' hact
    unfold lookupActive at hact
    unfold handleWebSocketMessage
    cases hcs : st'.currentSessionId with
    | none => rfl
    | some sid' =>
      rw [hcs] at hact
      change List.find? (fun x => x.id == sid') st'.sessions = none at hact
      simp only [hact]

/-- Concrete check of C7: a `status` event with message "thinking"
delivered to the open sample state. -/
theorem c7_status_log_dispatch_witness :
    (handleWebSocketMessage openConnState
        { type := "status", task_id := none, message := some "thinking"
          level := none, result := none, error := none, timestamp := some "t1" }
        "m2" 9).sessions.find? (fun x => x.id == "s1") =
      some { id := "s1", title := "New Chat"
             messages := [{ id := "m2", role := Role.system, content := "thinking"
                            timestamp := DateV.fromTs (some "t1")
                            status := some MsgStatus.sent }]
             createdAt := DateV.clock 0, updatedAt := DateV.clock 9 } := by
  have h := c7_status_log_dispatch openConnState
    { type := "status", task_id := none, message := some "thinking"
      level := none, result := none, error := none, timestamp := some "t1" }
    "m2" 9 "s1"
    { id := "s1", title := "New Chat", messages := []
      createdAt := DateV.clock 0, updatedAt := DateV.clock 0 }
    (Or.inl rfl) rfl rfl
  exact (h.1 "thinking" rfl (by decide)).1

/-- C8 as frozen is refuted by `c8_result_counterexample`: an event whose
`result` field is present but empty clears the processing flag yet appends
nothing (`if (message.result)` is a truthiness test).  Amended claim: a
`task_completed` event carrying a non-empty `result` appends exactly one
assistant-role message and clears the processing flag regardless of its
prior value; with an absent or empty `result` the flag is still cleared
and no message is appended. -/
theorem c8_task_completed_dispatch (st : ChatState) (m : WebSocketMessage)
    (fid : String) (now : Nat) (sid : String) (s : ChatSession)
    (hty : m.type = "task_completed")
    (hsid : st.currentSessionId = some sid)
    (hfind : st.sessions.find? (fun x => x.id == sid) = some s) :
    (∀ r : String, m.result = some r → r ≠ "" →
      (handleWebSocketMessage st m fid now).sessions.find? (fun x => x.id == sid) =
        some { s with
          messages := s.messages ++
            [{ id := fid, role := Role.assistant, content := r
               timestamp := DateV.fromTs m.timestamp, status := some MsgStatus.sent }]
          updatedAt := DateV.clock now } ∧
      (handleWebSocketMessage st m fid now).isProcessing = false) ∧
    ((m.result = none ∨ m.result = some "") →
      handleWebSocketMessage st m fid now = { st with isProcessing := false }) := by
  have hty1 : (m.type == "task_started") = false := by rw [hty]; rfl
  have hty2 : (m.type == "status" || m.type == "log") = false := by rw [hty]; rfl
  have hty3 : (m.type == "task_completed") = true := by rw [hty]; rfl
  constructor
  · intro r hr hne
    have hne' : (r == "") = false := by simp [hne]
    unfold handleWebSocketMessage
    simp only [hsid, hfind, hty1, hty2, hty3, hr, hne', Bool.false_eq_true,
      if_false, if_true]
    constructor
    · unfold appendTo
      exact find?_modifySession st.sessions sid _ s hfind rfl
    · trivial
  · intro hr
    unfold handleWebSocketMessage
    have he : (("" : String) == "") = true := rfl
    rcases hr with hr | hr <;>
      simp only [hsid, hfind, hty1, hty2, hty3, hr, he, Bool.false_eq_true,
        if_false, if_true]

/-- C8 counterexample: a `task_completed` event whose `result` field is
present (but empty) appends zero messages while the claim demands exactly
one; the flag is still cleared. -/
theorem c8_result_counterexample :
    ({ type := "task_completed", task_id := none, message := none, level := none
       result := some "", error := none, timestamp := some "t2"
       : WebSocketMessage }).result = some "" ∧
    handleWebSocketMessage openConnState
        { type := "task_completed", task_id := none, message := none, level := none
          result := some "", error := none, timestamp := some "t2" }
        "m3" 4 = { openConnState with isProcessing := false } ∧
    ((handleWebSocketMessage openConnState
        { type := "task_completed", task_id := none, message := none, level := none
          result := some "", error := none, timestamp := some "t2" }
        "m3" 4).sessions.find? (fun x => x.id == "s1")).map
      (fun x => x.messages.length) = some 0 := by
  refine ⟨rfl, ?_, ?_⟩ <;> rfl

/-- C1 as frozen is refuted by `c1_stale_counterexample`: the `onmessage`
closure calls the handler without comparing the delivering socket with
`wsRef.current`, so a frame from a superseded connection mutates state.
Amended claim: an event frame delivered by a superseded connection is not
ignored — it is processed by `handleWebSocketMessage` exactly as a frame
from the current connection would be; no ownership or provenance check
exists. -/
theorem c1_no_provenance_check (conn otherConn : Nat) (st : ChatState)
    (m : WebSocketMessage) (fid : String) (now : Nat) :
    deliverFrame conn st m fid now = deliverFrame otherConn st m fid now ∧
    deliverFrame conn st m fid now = handleWebSocketMessage st m fid now :=
  ⟨rfl, rfl⟩

/-- C1 counterexample: the current connection of the sample state is
instance 0, yet a `status` frame delivered by the superseded instance 7
changes the state (a system message is appended), where the claim requires
the state to be left unchanged. -/
theorem c1_stale_counterexample :
    openConnState.wsRef = some { id := 0, readyState := WsReadyState.opened } ∧
    deliverFrame 7 openConnState
        { type := "status", task_id := none, message := some "late", level := none
          result := none, error := none, timestamp := some "t9" }
        "m7" 2 ≠ openConnState := by
  refine ⟨rfl, ?_⟩
  decide

/-- Concrete check of the amended C8: `result = "hi there"` appends one
assistant message and clears a previously-true processing flag. -/
theorem c8_task_completed_dispatch_witness :
    (handleWebSocketMessage { openConnState with isProcessing := true }
        { type := "task_completed", task_id := none, message := none, level := none
          result := some "hi there", error := none, timestamp := some "t3" }
        "m4" 5).sessions.find? (fun x => x.id == "s1") =
      some { id := "s1", title := "New Chat"
             messages := [{ id := "m4", role := Role.assistant, content := "hi there"
                            timestamp := DateV.fromTs (some "t3")
                            status := some MsgStatus.sent }]
             createdAt := DateV.clock 0, updatedAt := DateV.clock 5 } ∧
    (handleWebSocketMessage { openConnState with isProcessing := true }
        { type := "task_completed", task_id := none, message := none, level := none
          result := some "hi there", error := none, timestamp := some "t3" }
        "m4" 5).isProcessing = false := by
  have h := c8_task_completed_dispatch { openConnState with isProcessing := true }
    { type := "task_completed", task_id := none, message := none, level := none
      result := some "hi there", error := none, timestamp := some "t3" }
    "m4" 5 "s1"
    { id := "s1", title := "New Chat", messages := []
      createdAt := DateV.clock 0, updatedAt := DateV.clock 0 }
    rfl rfl rfl
  exact h.1 "hi there" rfl (by decide)

theorem pushUser_id (um : Message) (c : String) (n : Nat) (s : ChatSession) :
    (pushUser um c n s).id = s.id := by
  unfold pushUser
  dsimp only
  split <;> rfl

theorem pushUser_messages (um : Message) (c : String) (n : Nat) (s : ChatSession) :
    (pushUser um c n s).messages = s.messages ++ [um] := by
  unfold pushUser
  dsimp only
  split <;> rfl

theorem modifyMessage_append_fresh (l : List Message) (msg : Message)
    (mid : String) (f : Message → Message)
    (hfresh : ∀ x ∈ l, (x.id == mid) = false) (hm : (msg.id == mid) = true) :
    modifyMessage (l ++ [msg]) mid f = l ++ [f msg] := by
  induction l with
  | nil =>
    simp only [List.nil_append]
    unfold modifyMessage
    rw [if_pos hm]
  | cons a rest ih =>
    have ha : (a.id == mid) = false := hfresh a (List.mem_cons_self a rest)
    simp only [List.cons_append]
    unfold modifyMessage
    rw [if_neg (by rw [ha]; exact Bool.false_ne_true)]
    rw [ih (fun x hx => hfresh x (List.mem_cons_of_mem a hx))]

/-- C5: with the connectivity flag raised but the socket not actually
`OPEN`, `sendTask` fails with the fixed not-connected error and writes no
frame; `sendMessage` drops the outgoing frame and reports the failure by
marking the just-appended user message with the `error` status.  When the
socket is `OPEN`, `sendTask` writes the frame and returns it at once,
awaiting nothing. -/
theorem c5_send_not_connected (st : ChatState) (content mid : String)
    (seed now : Nat) (sid : String) (ws : WsConn) (s : ChatSession)
    (hsid : st.currentSessionId = some sid) (hne : sid ≠ "")
    (hws : st.wsRef = some ws) (hconn : st.isConnected = true)
    (hnotopen : ws.readyState ≠ WsReadyState.opened)
    (hfind : st.sessions.find? (fun x => x.id == sid) = some s)
    (hfresh : ∀ x ∈ s.messages, x.id ≠ mid) :
    (∀ req : TaskRequestW, sendTask ws req = Except.error "WebSocket is not open") ∧
    (sendMessage st content mid seed now).2 = [] ∧
    (((sendMessage st content mid seed now).1.sessions.find?
        (fun x => x.id == sid)).map (fun x => x.messages)) =
      some (s.messages ++
        [{ id := mid, role := Role.user, content := content
           timestamp := DateV.clock now, status := some MsgStatus.error }]) ∧
    (∀ (ws' : WsConn) (req : TaskRequestW), ws'.readyState = WsReadyState.opened →
      sendTask ws' req = Except.ok { type := "task", prompt := req.prompt
                                     task_id := req.task_id }) := by
  have hb : (ws.readyState == WsReadyState.opened) = false := by
    simp [hnotopen]
  have hErr : ∀ req : TaskRequestW,
      sendTask ws req = Except.error "WebSocket is not open" := by
    intro req
    unfold sendTask
    rw [hb]
    rfl
  have hg : (sid == "" || !st.isConnected) = false := by
    rw [hconn]
    simp [hne]
  have hred : sendMessage st content mid seed now =
      (let um : Message :=
        { id := mid, role := Role.user, content := content
          timestamp := DateV.clock now, status := some MsgStatus.sending }
      let s1 := modifySession st.sessions sid (pushUser um content now)
      let s2 := modifySession s1 sid (markMsg mid MsgStatus.error)
      ({ st with sessions := s2 }, [])) := by
    unfold sendMessage
    simp only [hsid, hws, hg, Bool.false_eq_true, if_false]
    rw [hErr]
  refine ⟨hErr, ?_, ?_, ?_⟩
  · rw [hred]
  · rw [hred]
    have h1 := find?_modifySession st.sessions sid
      (pushUser { id := mid, role := Role.user, content := content
                  timestamp := DateV.clock now, status := some MsgStatus.sending }
        content now) s hfind (pushUser_id _ _ _ _)
    have h2 := find?_modifySession _ sid (markMsg mid MsgStatus.error) _ h1 rfl
    dsimp only
    rw [h2]
    unfold markMsg
    dsimp only
    rw [pushUser_messages]
    rw [modifyMessage_append_fresh _ _ _ _
      (fun x hx => by simp [hfresh x hx]) (by simp)]
    rfl
  · intro ws' req hopen
    unfold sendTask
    rw [hopen]
    rfl

/-- Concrete check of C5: the connectivity flag is stale (socket already
closed); the frame is dropped and the user message ends with `error`. -/
theorem c5_send_not_connected_witness :
    (sendMessage { openConnState with
        wsRef := some { id := 0, readyState := WsReadyState.closed } }
      "hi" "m5" 0 6).2 = [] ∧
    ((((sendMessage { openConnState with
        wsRef := some { id := 0, readyState := WsReadyState.closed } }
      "hi" "m5" 0 6).1.sessions.find? (fun x => x.id == "s1")).map
        (fun x => x.messages)) =
      some [{ id := "m5", role := Role.user, content := "hi"
              timestamp := DateV.clock 6, status := some MsgStatus.error }]) ∧
    sendTask { id := 0, readyState := WsReadyState.closed }
      { prompt := "hi", task_id := some "t" } =
        Except.error "WebSocket is not open" := by
  have h := c5_send_not_connected
    { openConnState with wsRef := some { id := 0, readyState := WsReadyState.closed } }
    "hi" "m5" 0 6 "s1" { id := 0, readyState := WsReadyState.closed }
    { id := "s1", title := "New Chat", messages := []
      createdAt := DateV.clock 0, updatedAt := DateV.clock 0 }
    rfl (by decide) rfl rfl (by decide) rfl (by intro x hx; cases hx)
  exact ⟨h.2.1, h.2.2.1, h.1 { prompt := "hi", task_id := some "t" }⟩

/-! ## Server-side claims -/

theorem filter_after_removal {α : Type} (p : α → Bool) (l : List α) :
    (l.filter (fun a => !(p a))).filter p = [] := by
  induction l with
  | nil => rfl
  | cons a rest ih => by_cases h : p a = true <;> simp [List.filter_cons, h, ih]

theorem map_id_of_mem {α : Type} (l : List α) (f : α → α)
    (h : ∀ a ∈ l, f a = a) : l.map f = l := by
  induction l with
  | nil => rfl
  | cons a rest ih =>
    rw [List.map_cons, h a (List.mem_cons_self a rest),
      ih (fun x hx => h x (List.mem_cons_of_mem a hx))]

/-- A database with one session owned by user 1 holding one message. -/
def sampleDb : Db :=
  { chatSessions := [{ id := 1, userId := 1, title := "mine"
                       createdAt := 0, updatedAt := 0 }]
    chatMessages := [{ id := 1, sessionId := 1, role := Role.user
                       content := "hello", createdAt := 0 }] }

/-- C9 as frozen is refuted by `c9_unguarded_routes_counterexample`: only
`getMessages` and `addMessage` check ownership; `updateSession` and
`deleteSession` run their ownership-scoped writes and report success even
against a session the caller does not own.  Amended claim: a `getMessages`
or `addMessage` against a non-owned session is rejected with the fixed
access-denied message; `updateSession` and `deleteSession` report success,
with the update touching nothing and the delete still erasing every
message of the session while leaving the session rows alone. -/
theorem c9_access_control (db : Db) (userId sessionId : Nat) (title : String)
    (role : Role) (content : String) (mid now : Nat)
    (h : getChatSession db sessionId userId = none) :
    routeGetMessages db userId sessionId = Except.error accessDeniedMsg ∧
    routeAddMessage db userId sessionId role content mid now =
      Except.error accessDeniedMsg ∧
    routeUpdateSession db userId sessionId title now = Except.ok db ∧
    routeDeleteSession db userId sessionId =
      Except.ok { db with chatMessages :=
        db.chatMessages.filter (fun m => !(m.sessionId == sessionId)) } := by
  have hall : ∀ s ∈ db.chatSessions,
      (s.id == sessionId && s.userId == userId) = false := by
    intro s hs
    have hn := List.find?_eq_none.mp h s hs
    exact Bool.not_eq_true _ ▸ hn
  refine ⟨?_, ?_, ?_, ?_⟩
  · unfold routeGetMessages
    rw [h]
  · unfold routeAddMessage
    rw [h]
  · unfold routeUpdateSession updateChatSession
    have : db.chatSessions.map (fun s =>
        if s.id == sessionId && s.userId == userId then
          ({ s with title := title, updatedAt := now } : DbChatSession)
        else s) = db.chatSessions := by
      apply map_id_of_mem
      intro a ha
      rw [hall a ha]
      simp
    rw [this]
  · unfold routeDeleteSession deleteChatSession
    dsimp only
    have : db.chatSessions.filter
        (fun s => !(s.id == sessionId && s.userId == userId)) = db.chatSessions := by
      apply List.filter_eq_self.mpr
      intro a ha
      rw [hall a ha]
      rfl
    rw [this]

/-- C9 counterexample: user 2 runs `updateSession` and `deleteSession`
against session 1, which user 1 owns; both report success instead of being
rejected (and the delete erases the session's messages). -/
theorem c9_unguarded_routes_counterexample :
    getChatSession sampleDb 1 2 = none ∧
    routeUpdateSession sampleDb 2 1 "hacked" 9 = Except.ok sampleDb ∧
    routeDeleteSession sampleDb 2 1 =
      Except.ok { sampleDb with chatMessages := [] } := by
  refine ⟨rfl, ?_, ?_⟩ <;> rfl

/-- Concrete check of the amended C9 with user 2 against session 1. -/
theorem c9_access_control_witness :
    getChatSession sampleDb 1 2 = none ∧
    routeGetMessages sampleDb 2 1 = Except.error accessDeniedMsg ∧
    routeAddMessage sampleDb 2 1 Role.user "x" 9 9 = Except.error accessDeniedMsg ∧
    routeUpdateSession sampleDb 2 1 "t" 9 = Except.ok sampleDb := by
  have h := c9_access_control sampleDb 2 1 "t" Role.user "x" 9 9 rfl
  exact ⟨rfl, h.1, h.2.1, h.2.2.1⟩

/-- C10: `deleteChatSession` erases every message row whose `sessionId`
matches, whatever `userId` is passed (even when the session belongs to
someone else or does not exist); the ownership condition only scopes the
deletion of the session row, which survives when owned by another user. -/
theorem c10_delete_messages_unowned (db : Db) (sessionId userId : Nat) :
    (deleteChatSession db sessionId userId).chatMessages.filter
      (fun m => m.sessionId == sessionId) = [] ∧
    (∀ s : DbChatSession, s ∈ db.chatSessions → s.userId ≠ userId →
      s ∈ (deleteChatSession db sessionId userId).chatSessions) := by
  constructor
  · unfold deleteChatSession
    exact filter_after_removal _ _
  · intro s hs hneq
    unfold deleteChatSession
    dsimp only
    rw [List.mem_filter]
    refine ⟨hs, ?_⟩
    have hu : (s.userId == userId) = false := by simp [hneq]
    rw [hu]
    simp

/-- Concrete check of C10: user 2 deletes session 1 owned by user 1; the
session's message rows are all gone while the session row survives. -/
theorem c10_delete_messages_unowned_witness :
    (deleteChatSession sampleDb 1 2).chatMessages.filter
      (fun m => m.sessionId == 1) = [] ∧
    ({ id := 1, userId := 1, title := "mine", createdAt := 0, updatedAt := 0
       : DbChatSession }) ∈ (deleteChatSession sampleDb 1 2).chatSessions := by
  have h := c10_delete_messages_unowned sampleDb 1 2
  exact ⟨h.1, h.2 _ (by decide) (by decide)⟩

end OpenManus
